import Mathlib

/-!
Shallow embedding of the NDVI request/response orchestration of the
Flask application in `src/main.py`: the three imagery endpoints
(`/ndvi-image`, `/ndvi-stats`, `/export-ndvi-csv`), the Sentinel Hub
payload builders, the evalscript pixel-shading formula, the fallback
statistics policy, and the analysis upsert endpoint `create_analysis`
over the `NDVIAnalysis` records of `src/models.py`.

Exceptions of the Python code are modelled explicitly: GeoJSON parsing
(`json.loads` plus the `features[0].geometry` extraction) is a
parameter of type `String → Except String String` (error message or
extracted geometry), and the outbound `requests.post` call is a
parameter `SentinelPayload → GatewayOutcome` which either yields an
HTTP response or a transport exception. Python floats are modelled as
rationals; response byte bodies as `List Nat`.
-/

namespace NdviApp

/-- Flag from `main.py` line 18: rasterio is unconditionally disabled. -/
def RASTERIO_AVAILABLE : Bool := false

/-- Flag from `main.py` line 15: pandas is available. -/
def PANDAS_AVAILABLE : Bool := true

/-- Truthiness of an optional query parameter, as in Python
`if not parcel_geojson or not date:`; an absent parameter and the empty
string are both falsy. -/
def truthy : Option String → Bool
  | none => false
  | some s => !s.isEmpty

/-- Response of the Sentinel Hub process endpoint: HTTP status, body
text (as read by `response.text`), body bytes (`response.content`) and
the optional `content-length` header value. -/
structure GatewayResponse where
  status : Nat
  bodyText : String
  content : List Nat
  contentLength : Option Nat
deriving DecidableEq

/-- Outcome of `requests.post` against the process endpoint: either a
response object, or a transport exception with its message. -/
inductive GatewayOutcome where
  | response (r : GatewayResponse)
  | transportError (msg : String)
deriving DecidableEq

/-- Outbound process request body, `main.py` lines 237–290 / 381–410 /
537–566: geometry from the parsed GeoJSON, the data type, the full-day
time range, output width/height and format, and the evalscript. The
evalscript texts are modelled by short tags; the visualization
evalscript's pixel function is modelled separately as `evaluatePixel`. -/
structure SentinelPayload where
  geometry : String
  dataType : String
  timeFrom : String
  timeTo : String
  width : Nat
  height : Nat
  responseFormat : String
  evalscript : String
deriving DecidableEq

/-- Payload built by `/ndvi-image` (`main.py` lines 237–290): PNG
output, 512×512, full-day time window, visualization evalscript. -/
def buildImagePayload (geometry date : String) : SentinelPayload :=
  { geometry := geometry
    dataType := "sentinel-2-l2a"
    timeFrom := date ++ "T00:00:00Z"
    timeTo := date ++ "T23:59:59Z"
    width := 512
    height := 512
    responseFormat := "image/png"
    evalscript := "ndvi-visualization" }

/-- Payload built by `/ndvi-stats` (`main.py` lines 381–410): TIFF
output, 512×512, full-day time window, single-band raw NDVI
evalscript. -/
def buildStatsPayload (geometry date : String) : SentinelPayload :=
  { geometry := geometry
    dataType := "sentinel-2-l2a"
    timeFrom := date ++ "T00:00:00Z"
    timeTo := date ++ "T23:59:59Z"
    width := 512
    height := 512
    responseFormat := "image/tiff"
    evalscript := "ndvi-raw" }

/-- Payload built by `/export-ndvi-csv` (`main.py` lines 537–566);
textually identical to the `/ndvi-stats` payload in the source. -/
def buildCsvPayload (geometry date : String) : SentinelPayload :=
  { geometry := geometry
    dataType := "sentinel-2-l2a"
    timeFrom := date ++ "T00:00:00Z"
    timeTo := date ++ "T23:59:59Z"
    width := 512
    height := 512
    responseFormat := "image/tiff"
    evalscript := "ndvi-raw" }

/-- Pixel-shading function of the visualization evalscript embedded in
`/ndvi-image` (`main.py` lines 261–288), over rationals: red for
negative NDVI; a linear red→green blend for values below 0.33; and a
darkening green for values from 0.33 up. -/
def evaluatePixel (ndvi : ℚ) : ℚ × ℚ × ℚ :=
  if ndvi < 0 then (1, 0, 0)
  else if ndvi < 33/100 then (1 - ndvi / (33/100), ndvi / (33/100), 0)
  else (0, 8/10 - (ndvi - 33/100) * (5/10), 0)

/-- Area distribution fractions of an NDVI statistics payload. -/
structure AreaDistribution where
  low_vegetation : ℚ
  moderate_vegetation : ℚ
  high_vegetation : ℚ
deriving DecidableEq

/-- NDVI statistics payload shape returned by `/ndvi-stats` and used
by `/export-ndvi-csv` before flattening. -/
structure NdviStats where
  mean : ℚ
  median : ℚ
  std_dev : ℚ
  min : ℚ
  max : ℚ
  p10 : ℚ
  p90 : ℚ
  count : Nat
  area_distribution : AreaDistribution
  data_source : String
deriving DecidableEq

/-- Hard-coded fallback estimate of `/ndvi-stats` (`main.py` lines
451–466), used because rasterio is unavailable. -/
def statsEstimateBase : NdviStats :=
  { mean := 45/100
    median := 48/100
    std_dev := 15/100
    min := 12/100
    max := 78/100
    p10 := 22/100
    p90 := 67/100
    count := 250000
    area_distribution :=
      { low_vegetation := 2/10
        moderate_vegetation := 45/100
        high_vegetation := 35/100 }
    data_source := "Sentinel Hub data (estimated values)" }

/-- Content-length refinement of `/ndvi-stats` (`main.py` lines
468–473): when the gateway response carries a `content-length` header
above 100000, the pixel count is replaced by `size // 4`. -/
def applyContentLengthRefinement (stats : NdviStats) (r : GatewayResponse) : NdviStats :=
  match r.contentLength with
  | some size => if size > 100000 then { stats with count := size / 4 } else stats
  | none => stats

/-- Hard-coded statistics of the `/export-ndvi-csv` fallback path
(`main.py` lines 575–590). No content-length refinement is applied in
this path. -/
def csvDerivedStats : NdviStats :=
  { mean := 63/100
    median := 67/100
    std_dev := 17/100
    min := 4/100
    max := 93/100
    p10 := 42/100
    p90 := 87/100
    count := 262144
    area_distribution :=
      { low_vegetation := 15/100
        moderate_vegetation := 38/100
        high_vegetation := 47/100 }
    data_source := "Sentinel Hub (derived values - rasterio unavailable)" }

/-- Sample-statistics dictionary of the dead demo branch of
`/ndvi-stats` (`main.py` lines 360–377): carries a message and a
status marker besides the statistics fields, and no data source. -/
structure DemoStats where
  message : String
  status : String
  mean : ℚ
  median : ℚ
  std_dev : ℚ
  min : ℚ
  max : ℚ
  p10 : ℚ
  p90 : ℚ
  count : Nat
  area_distribution : AreaDistribution
deriving DecidableEq

/-- Values of the demo dictionary in `/ndvi-stats` lines 361–377. -/
def demoStatsDict : DemoStats :=
  { message := "Demo mode - Using sample data"
    status := "demo_data"
    mean := 65/100
    median := 68/100
    std_dev := 15/100
    min := 1/10
    max := 9/10
    p10 := 45/100
    p90 := 85/100
    count := 262144
    area_distribution :=
      { low_vegetation := 1/10
        moderate_vegetation := 3/10
        high_vegetation := 6/10 } }

/-- Demo statistics assigned (never reached) by the dead demo branch
of `/export-ndvi-csv` (`main.py` lines 516–533). The source dictionary
carries `message` and `status` fields instead of a `data_source`; the
downstream flattening reads neither, so they are dropped here and the
unused `data_source` field is left empty. -/
def demoCsvStats : NdviStats :=
  { mean := 65/100
    median := 68/100
    std_dev := 15/100
    min := 1/10
    max := 9/10
    p10 := 45/100
    p90 := 85/100
    count := 262144
    area_distribution :=
      { low_vegetation := 1/10
        moderate_vegetation := 3/10
        high_vegetation := 6/10 }
    data_source := "" }

/-- Response of `/ndvi-stats`: either a 200 JSON statistics payload, a
JSON error body `(error, optional error_details)` with an HTTP status,
the dead demo-branch payload, or the dead rasterio branch (whose body
is `try: pass` followed by falling off the function). -/
inductive StatsResponse where
  | ok (stats : NdviStats)
  | err (status : Nat) (message : String) (details : Option String)
  | demo (d : DemoStats)
  | rasterioPath
deriving DecidableEq

/-- Handler of `/ndvi-stats` (`main.py` lines 335–482). `parseGeometry`
models `json.loads` plus the `features[0].geometry` extraction (error
message on exception); `gw` models `requests.post` on the process
endpoint. Exceptions land in the outer handler, which returns the
`Error processing NDVI data` body with status 500. -/
def get_ndvi_stats (parseGeometry : String → Except String String)
    (gw : SentinelPayload → GatewayOutcome)
    (parcel_geojson date : Option String) : StatsResponse :=
  if !truthy parcel_geojson || !truthy date then
    .err 400 "Missing required parameters: parcel_geojson, date" none
  else if (false : Bool) then
    .demo demoStatsDict
  else
    match parseGeometry (parcel_geojson.getD "") with
    | .error e => .err 500 "Error processing NDVI data" (some e)
    | .ok geometry =>
      match gw (buildStatsPayload geometry (date.getD "")) with
      | .transportError e => .err 500 "Error processing NDVI data" (some e)
      | .response r =>
        if r.status ≠ 200 then
          .err r.status ("Error from Sentinel API: " ++ r.bodyText) none
        else if RASTERIO_AVAILABLE then
          .rasterioPath
        else
          .ok (applyContentLengthRefinement statsEstimateBase r)

/-- Body of an `/ndvi-image` response: plain text, raw PNG bytes, or
generated SVG markup. -/
inductive ImageBody where
  | text (s : String)
  | png (content : List Nat)
  | svg (s : String)
deriving DecidableEq

/-- Response of `/ndvi-image`: HTTP status, mimetype and body. -/
structure ImageResponse where
  status : Nat
  mimetype : String
  body : ImageBody
deriving DecidableEq

/-- An image payload in the sense of the spec: PNG bytes or an SVG
graphic, as opposed to a plain-text body. -/
def isImagePayload : ImageBody → Bool
  | .text _ => false
  | .png _ => true
  | .svg _ => true

/-- Dead demo branch of `/ndvi-image` (`main.py` lines 163–233): builds
a status-200 SVG from the parcel polygon (or a fallback rectangle SVG
on error, also status 200). The branch is guarded by a literal
`if False:`; its SVG markup is modelled by its caption applied to the
raw GeoJSON string, since no reachable behavior depends on it. -/
def demoImageResponse (parcel_geojson : String) : ImageResponse :=
  { status := 200
    mimetype := "image/svg+xml"
    body := .svg ("Demo NDVI Image (Sample Data): " ++ parcel_geojson) }

/-- SVG markup of the connection-error placeholder of `/ndvi-image`
(`main.py` lines 307–314), modelled by its caption and the interpolated
exception message. -/
def connectionErrorSvgText (msg : String) : String :=
  "API Connection Error: " ++ msg

/-- SVG markup of the generic error placeholder of `/ndvi-image`
(`main.py` lines 322–329); its text is fixed and does not interpolate
the exception. -/
def errorFallbackSvgText : String :=
  "Error generating NDVI image: Please try another date or area"

/-- Handler of `/ndvi-image` (`main.py` lines 138–332). On upstream
non-200 the upstream text is returned as a text/plain body with the
upstream status; on a transport exception a 500 SVG placeholder; on a
parse exception the outer handler returns a 200 SVG placeholder. -/
def get_ndvi_image (parseGeometry : String → Except String String)
    (gw : SentinelPayload → GatewayOutcome)
    (parcel_geojson date : Option String) : ImageResponse :=
  if !truthy parcel_geojson || !truthy date then
    { status := 400
      mimetype := "text/plain"
      body := .text "Missing required parameters: parcel_geojson, date" }
  else if (false : Bool) then
    demoImageResponse (parcel_geojson.getD "")
  else
    match parseGeometry (parcel_geojson.getD "") with
    | .error _ =>
      { status := 200, mimetype := "image/svg+xml", body := .svg errorFallbackSvgText }
    | .ok geometry =>
      match gw (buildImagePayload geometry (date.getD "")) with
      | .transportError e =>
        { status := 500
          mimetype := "image/svg+xml"
          body := .svg (connectionErrorSvgText e) }
      | .response r =>
        if r.status ≠ 200 then
          { status := r.status
            mimetype := "text/plain"
            body := .text ("Error from Sentinel Hub API: " ++ r.bodyText) }
        else
          { status := 200, mimetype := "image/png", body := .png r.content }

/-- The single CSV data row produced by `/export-ndvi-csv` (`main.py`
lines 593–612): flattened statistics with the three vegetation
fractions scaled by 100 and a final `data_source` column. -/
structure CsvRow where
  date : String
  mean_ndvi : ℚ
  median_ndvi : ℚ
  std_dev_ndvi : ℚ
  min_ndvi : ℚ
  max_ndvi : ℚ
  percentile_10 : ℚ
  percentile_90 : ℚ
  pixel_count : Nat
  low_vegetation_pct : ℚ
  moderate_vegetation_pct : ℚ
  high_vegetation_pct : ℚ
  data_source : String
deriving DecidableEq

/-- Response of `/export-ndvi-csv`: either a text/plain error body
with a status, or a 200 CSV attachment with its filename and row. -/
inductive CsvResponse where
  | errorText (status : Nat) (message : String)
  | file (filename : String) (row : CsvRow)
deriving DecidableEq

/-- Flattening of the statistics into the CSV row (`main.py` lines
593–612): fractions are multiplied by 100, and `data_source` is then
set from the `use_demo_data` flag — overwriting the label carried by
the statistics dictionary. -/
def flattenStats (date : String) (stats : NdviStats) (use_demo_data : Bool) : CsvRow :=
  { date := date
    mean_ndvi := stats.mean
    median_ndvi := stats.median
    std_dev_ndvi := stats.std_dev
    min_ndvi := stats.min
    max_ndvi := stats.max
    percentile_10 := stats.p10
    percentile_90 := stats.p90
    pixel_count := stats.count
    low_vegetation_pct := stats.area_distribution.low_vegetation * 100
    moderate_vegetation_pct := stats.area_distribution.moderate_vegetation * 100
    high_vegetation_pct := stats.area_distribution.high_vegetation * 100
    data_source := if use_demo_data then "Demo data (sample values)" else "Sentinel-2 satellite data" }

/-- Handler of `/export-ndvi-csv` (`main.py` lines 485–625). The
fallback statistics are the fixed `csvDerivedStats`; the flattening
stage then overwrites the data-source label (`use_demo_data` is the
constant `False` of line 510). -/
def export_ndvi_csv (parseGeometry : String → Except String String)
    (gw : SentinelPayload → GatewayOutcome)
    (parcel_geojson date : Option String) : CsvResponse :=
  if !truthy parcel_geojson || !truthy date then
    .errorText 400 "Missing required parameters: parcel_geojson, date"
  else if !PANDAS_AVAILABLE then
    .errorText 500 "Required library pandas not installed. Please install pandas for CSV export."
  else
    let statsOrEarly : Except CsvResponse NdviStats :=
      if (false : Bool) then
        .ok demoCsvStats
      else
        match parseGeometry (parcel_geojson.getD "") with
        | .error e => .error (.errorText 500 ("Error exporting CSV: " ++ e))
        | .ok geometry =>
          match gw (buildCsvPayload geometry (date.getD "")) with
          | .transportError e => .error (.errorText 500 ("Error exporting CSV: " ++ e))
          | .response r =>
            if r.status ≠ 200 then
              .error (.errorText r.status ("Error from Sentinel API: " ++ r.bodyText))
            else
              .ok csvDerivedStats
    match statsOrEarly with
    | .error resp => resp
    | .ok stats =>
      .file ("ndvi_stats_" ++ date.getD "" ++ ".csv") (flattenStats (date.getD "") stats false)

/-- Handler of `/ndvi-stats` with the dead `if False:` demo branch of
lines 359–377 deleted; used to state the refinement claim about
demo-branch unreachability. -/
def get_ndvi_stats_nodemo (parseGeometry : String → Except String String)
    (gw : SentinelPayload → GatewayOutcome)
    (parcel_geojson date : Option String) : StatsResponse :=
  if !truthy parcel_geojson || !truthy date then
    .err 400 "Missing required parameters: parcel_geojson, date" none
  else
    match parseGeometry (parcel_geojson.getD "") with
    | .error e => .err 500 "Error processing NDVI data" (some e)
    | .ok geometry =>
      match gw (buildStatsPayload geometry (date.getD "")) with
      | .transportError e => .err 500 "Error processing NDVI data" (some e)
      | .response r =>
        if r.status ≠ 200 then
          .err r.status ("Error from Sentinel API: " ++ r.bodyText) none
        else if RASTERIO_AVAILABLE then
          .rasterioPath
        else
          .ok (applyContentLengthRefinement statsEstimateBase r)

/-- Handler of `/ndvi-image` with the dead `if False:` demo branch of
lines 163–233 deleted. -/
def get_ndvi_image_nodemo (parseGeometry : String → Except String String)
    (gw : SentinelPayload → GatewayOutcome)
    (parcel_geojson date : Option String) : ImageResponse :=
  if !truthy parcel_geojson || !truthy date then
    { status := 400
      mimetype := "text/plain"
      body := .text "Missing required parameters: parcel_geojson, date" }
  else
    match parseGeometry (parcel_geojson.getD "") with
    | .error _ =>
      { status := 200, mimetype := "image/svg+xml", body := .svg errorFallbackSvgText }
    | .ok geometry =>
      match gw (buildImagePayload geometry (date.getD "")) with
      | .transportError e =>
        { status := 500
          mimetype := "image/svg+xml"
          body := .svg (connectionErrorSvgText e) }
      | .response r =>
        if r.status ≠ 200 then
          { status := r.status
            mimetype := "text/plain"
            body := .text ("Error from Sentinel Hub API: " ++ r.bodyText) }
        else
          { status := 200, mimetype := "image/png", body := .png r.content }

/-- Handler of `/export-ndvi-csv` with the dead `if False:` demo branch
of lines 515–533 deleted. -/
def export_ndvi_csv_nodemo (parseGeometry : String → Except String String)
    (gw : SentinelPayload → GatewayOutcome)
    (parcel_geojson date : Option String) : CsvResponse :=
  if !truthy parcel_geojson || !truthy date then
    .errorText 400 "Missing required parameters: parcel_geojson, date"
  else if !PANDAS_AVAILABLE then
    .errorText 500 "Required library pandas not installed. Please install pandas for CSV export."
  else
    let statsOrEarly : Except CsvResponse NdviStats :=
      match parseGeometry (parcel_geojson.getD "") with
      | .error e => .error (.errorText 500 ("Error exporting CSV: " ++ e))
      | .ok geometry =>
        match gw (buildCsvPayload geometry (date.getD "")) with
        | .transportError e => .error (.errorText 500 ("Error exporting CSV: " ++ e))
        | .response r =>
          if r.status ≠ 200 then
            .error (.errorText r.status ("Error from Sentinel API: " ++ r.bodyText))
          else
            .ok csvDerivedStats
    match statsOrEarly with
    | .error resp => resp
    | .ok stats =>
      .file ("ndvi_stats_" ++ date.getD "" ++ ".csv") (flattenStats (date.getD "") stats false)

/-- A persisted `NDVIAnalysis` record (`src/models.py` lines 63–93):
keyed by parcel id and analysis date, with the statistics fields. The
parsed date is modelled as its `YYYY-MM-DD` string. -/
structure AnalysisRecord where
  parcel_id : Nat
  analysis_date : String
  mean_ndvi : ℚ
  median_ndvi : ℚ
  min_ndvi : ℚ
  max_ndvi : ℚ
  std_dev_ndvi : ℚ
  percentile_10 : Option ℚ
  percentile_90 : Option ℚ
  low_vegetation : Option ℚ
  moderate_vegetation : Option ℚ
  high_vegetation : Option ℚ
  notes : Option String
deriving DecidableEq

/-- The JSON body of a POST to `/api/parcels/{parcel_id}/analyses`
(`main.py` lines 1007–1060): every statistics field is optional
(`data.get`). -/
structure AnalysisData where
  mean_ndvi : Option ℚ
  median_ndvi : Option ℚ
  min_ndvi : Option ℚ
  max_ndvi : Option ℚ
  std_dev_ndvi : Option ℚ
  percentile_10 : Option ℚ
  percentile_90 : Option ℚ
  low_vegetation : Option ℚ
  moderate_vegetation : Option ℚ
  high_vegetation : Option ℚ
  notes : Option String
deriving DecidableEq

/-- An `AnalysisData` with every field absent. -/
def AnalysisData.empty : AnalysisData :=
  { mean_ndvi := none, median_ndvi := none, min_ndvi := none, max_ndvi := none
    std_dev_ndvi := none, percentile_10 := none, percentile_90 := none
    low_vegetation := none, moderate_vegetation := none, high_vegetation := none
    notes := none }

/-- In-place update of an existing analysis (`main.py` lines
1025–1036): each field falls back to the stored value when absent from
the request body; the key fields are never touched. -/
def updateAnalysis (r : AnalysisRecord) (d : AnalysisData) : AnalysisRecord :=
  { r with
    mean_ndvi := d.mean_ndvi.getD r.mean_ndvi
    median_ndvi := d.median_ndvi.getD r.median_ndvi
    min_ndvi := d.min_ndvi.getD r.min_ndvi
    max_ndvi := d.max_ndvi.getD r.max_ndvi
    std_dev_ndvi := d.std_dev_ndvi.getD r.std_dev_ndvi
    percentile_10 := match d.percentile_10 with | some v => some v | none => r.percentile_10
    percentile_90 := match d.percentile_90 with | some v => some v | none => r.percentile_90
    low_vegetation := match d.low_vegetation with | some v => some v | none => r.low_vegetation
    moderate_vegetation :=
      match d.moderate_vegetation with | some v => some v | none => r.moderate_vegetation
    high_vegetation := match d.high_vegetation with | some v => some v | none => r.high_vegetation
    notes := match d.notes with | some v => some v | none => r.notes }

/-- Construction of a fresh analysis (`main.py` lines 1047–1061):
numeric fields default to 0, the nullable columns to null. -/
def newAnalysis (pid : Nat) (date : String) (d : AnalysisData) : AnalysisRecord :=
  { parcel_id := pid
    analysis_date := date
    mean_ndvi := d.mean_ndvi.getD 0
    median_ndvi := d.median_ndvi.getD 0
    min_ndvi := d.min_ndvi.getD 0
    max_ndvi := d.max_ndvi.getD 0
    std_dev_ndvi := d.std_dev_ndvi.getD 0
    percentile_10 := d.percentile_10
    percentile_90 := d.percentile_90
    low_vegetation := d.low_vegetation
    moderate_vegetation := d.moderate_vegetation
    high_vegetation := d.high_vegetation
    notes := d.notes }

/-- The filter `NDVIAnalysis.query.filter_by(parcel_id=..,
analysis_date=..)` of `main.py` lines 1019–1022. -/
def matchesKey (pid : Nat) (date : String) (r : AnalysisRecord) : Bool :=
  r.parcel_id == pid && r.analysis_date == date

/-- Mutation of the first record satisfying `p`, modelling the update
through the `.first()` result. -/
def updateFirst (p : AnalysisRecord → Bool) (f : AnalysisRecord → AnalysisRecord) :
    List AnalysisRecord → List AnalysisRecord
  | [] => []
  | r :: rs => if p r then f r :: rs else r :: updateFirst p f rs

/-- Upsert core of `create_analysis` (`main.py` lines 1018–1070):
update the existing record for the (parcel, date) pair when one
exists, otherwise append a new record. -/
def create_analysis (db : List AnalysisRecord) (pid : Nat) (date : String)
    (d : AnalysisData) : List AnalysisRecord :=
  if db.any (matchesKey pid date) then
    updateFirst (matchesKey pid date) (fun r => updateAnalysis r d) db
  else
    db ++ [newAnalysis pid date d]

/-- One POST to `/api/parcels/{parcel_id}/analyses`: the target pair,
the body, and the outcomes of the two guards of `main.py` lines
1002–1016 (parcel lookup and date parsing); a failed guard returns
404/400 and leaves the database unchanged. -/
structure AnalysisPost where
  parcel_id : Nat
  analysis_date : String
  data : AnalysisData
  parcelFound : Bool
  dateParsed : Bool
deriving DecidableEq

/-- Effect of one POST on the stored records, guards included. -/
def applyPost (db : List AnalysisRecord) (op : AnalysisPost) : List AnalysisRecord :=
  if !op.parcelFound then db
  else if !op.dateParsed then db
  else create_analysis db op.parcel_id op.analysis_date op.data

/-- Database reached from empty storage by a sequence of POSTs. -/
def runPosts (ops : List AnalysisPost) : List AnalysisRecord :=
  ops.foldl applyPost []

/-- At most one stored analysis per (parcel, date) pair. -/
def atMostOnePerKey (db : List AnalysisRecord) : Prop :=
  ∀ pid date, db.countP (matchesKey pid date) ≤ 1

/-- Updating an analysis in place never changes its key fields, so key
membership is invariant under `updateAnalysis`. -/
theorem matchesKey_updateAnalysis (qpid : Nat) (qdate : String)
    (r : AnalysisRecord) (d : AnalysisData) :
    matchesKey qpid qdate (updateAnalysis r d) = matchesKey qpid qdate r := rfl

/-- Counting under a predicate invariant under the update function is
unchanged by `updateFirst`. -/
theorem countP_updateFirst (p q : AnalysisRecord → Bool)
    (f : AnalysisRecord → AnalysisRecord) (hf : ∀ r, q (f r) = q r)
    (l : List AnalysisRecord) :
    (updateFirst p f l).countP q = l.countP q := by
  induction l with
  | nil => rfl
  | cons r rs ih =>
    by_cases hp : p r = true
    · simp [updateFirst, hp, List.countP_cons, hf]
    · simp [updateFirst, hp, List.countP_cons, ih]

/-- In-place updates keep the number of stored records. -/
theorem length_updateFirst (p : AnalysisRecord → Bool)
    (f : AnalysisRecord → AnalysisRecord) (l : List AnalysisRecord) :
    (updateFirst p f l).length = l.length := by
  induction l with
  | nil => rfl
  | cons r rs ih =>
    by_cases hp : p r = true
    · simp [updateFirst, hp]
    · simp [updateFirst, hp, ih]

/-- One upsert preserves the at-most-one-record-per-pair invariant. -/
theorem create_analysis_preserves (db : List AnalysisRecord) (pid : Nat)
    (date : String) (d : AnalysisData) (h : atMostOnePerKey db) :
    atMostOnePerKey (create_analysis db pid date d) := by
  intro qpid qdate
  unfold create_analysis
  by_cases hex : db.any (matchesKey pid date) = true
  · rw [if_pos hex,
      countP_updateFirst _ _ _ (fun r => matchesKey_updateAnalysis qpid qdate r d)]
    exact h qpid qdate
  · rw [if_neg hex, List.countP_append]
    by_cases hm : matchesKey qpid qdate (newAnalysis pid date d) = true
    · have hkey : pid = qpid ∧ date = qdate := by
        simpa [matchesKey, newAnalysis] using hm
      have h0 : db.countP (matchesKey qpid qdate) = 0 := by
        rw [← hkey.1, ← hkey.2]
        refine List.countP_eq_zero.mpr ?_
        intro a ha
        exact fun hc => (List.any_eq_false.mp (Bool.not_eq_true _ ▸ hex) a ha) hc
      simp [h0, List.countP_cons, hm]
    · have h1 : List.countP (matchesKey qpid qdate) [newAnalysis pid date d] = 0 := by
        simp [List.countP_cons, hm]
      rw [h1]
      simpa using h qpid qdate

/-- One POST, its guards included, preserves the invariant. -/
theorem applyPost_preserves (db : List AnalysisRecord) (op : AnalysisPost)
    (h : atMostOnePerKey db) : atMostOnePerKey (applyPost db op) := by
  unfold applyPost
  by_cases h1 : op.parcelFound = true
  · by_cases h2 : op.dateParsed = true
    · simpa [h1, h2] using create_analysis_preserves db op.parcel_id op.analysis_date op.data h
    · simpa [h1, h2] using h
  · simpa [h1] using h

/-- Any sequence of POSTs starting from a store satisfying the
invariant ends in a store satisfying it. -/
theorem foldl_applyPost_preserves (ops : List AnalysisPost) :
    ∀ db : List AnalysisRecord, atMostOnePerKey db →
      atMostOnePerKey (ops.foldl applyPost db) := by
  induction ops with
  | nil => intro db h; exact h
  | cons op rest ih =>
    intro db h
    exact ih (applyPost db op) (applyPost_preserves db op h)

/-- Reduction of `/ndvi-stats` on the successful path: both parameters
present, GeoJSON parsed, gateway 200; since rasterio is disabled the
result is the fallback estimate with the content-length refinement. -/
theorem get_ndvi_stats_success (parse : String → Except String String)
    (gw : SentinelPayload → GatewayOutcome) (pg date : Option String)
    (geometry : String) (r : GatewayResponse)
    (hpg : truthy pg = true) (hdate : truthy date = true)
    (hparse : parse (pg.getD "") = .ok geometry)
    (hgw : gw (buildStatsPayload geometry (date.getD "")) = .response r)
    (h200 : r.status = 200) :
    get_ndvi_stats parse gw pg date =
      .ok (applyContentLengthRefinement statsEstimateBase r) := by
  simp [get_ndvi_stats, hpg, hdate, hparse, hgw, h200, RASTERIO_AVAILABLE]

/-- Reduction of `/export-ndvi-csv` on the successful path: the single
row flattens the fixed derived statistics and the attachment is named
after the requested date. -/
theorem export_ndvi_csv_success (parse : String → Except String String)
    (gw : SentinelPayload → GatewayOutcome) (pg date : Option String)
    (geometry : String) (r : GatewayResponse)
    (hpg : truthy pg = true) (hdate : truthy date = true)
    (hparse : parse (pg.getD "") = .ok geometry)
    (hgw : gw (buildCsvPayload geometry (date.getD "")) = .response r)
    (h200 : r.status = 200) :
    export_ndvi_csv parse gw pg date =
      .file ("ndvi_stats_" ++ date.getD "" ++ ".csv")
        (flattenStats (date.getD "") csvDerivedStats false) := by
  simp [export_ndvi_csv, hpg, hdate, hparse, hgw, h200, PANDAS_AVAILABLE]

/-- C10: the demo-mode branches guarded by a literal `if False:` in the
three NDVI handlers are unreachable for every request, so each handler
is observably equal to the same handler with those branches deleted. -/
theorem demo_branches_unreachable (parseGeometry : String → Except String String)
    (gw : SentinelPayload → GatewayOutcome) (parcel_geojson date : Option String) :
    get_ndvi_image parseGeometry gw parcel_geojson date =
      get_ndvi_image_nodemo parseGeometry gw parcel_geojson date ∧
    get_ndvi_stats parseGeometry gw parcel_geojson date =
      get_ndvi_stats_nodemo parseGeometry gw parcel_geojson date ∧
    export_ndvi_csv parseGeometry gw parcel_geojson date =
      export_ndvi_csv_nodemo parseGeometry gw parcel_geojson date :=
  ⟨rfl, rfl, rfl⟩

/-- C5: for every geometry and date, each of the three endpoints builds
its outbound imagery request with output width 512 and height 512 and a
time-range filter from dateT00:00:00Z to dateT23:59:59Z. -/
theorem payload_dimensions_and_time_window (geometry date : String) :
    (buildImagePayload geometry date).width = 512 ∧
    (buildImagePayload geometry date).height = 512 ∧
    (buildImagePayload geometry date).timeFrom = date ++ "T00:00:00Z" ∧
    (buildImagePayload geometry date).timeTo = date ++ "T23:59:59Z" ∧
    (buildStatsPayload geometry date).width = 512 ∧
    (buildStatsPayload geometry date).height = 512 ∧
    (buildStatsPayload geometry date).timeFrom = date ++ "T00:00:00Z" ∧
    (buildStatsPayload geometry date).timeTo = date ++ "T23:59:59Z" ∧
    (buildCsvPayload geometry date).width = 512 ∧
    (buildCsvPayload geometry date).height = 512 ∧
    (buildCsvPayload geometry date).timeFrom = date ++ "T00:00:00Z" ∧
    (buildCsvPayload geometry date).timeTo = date ++ "T23:59:59Z" :=
  ⟨rfl, rfl, rfl, rfl, rfl, rfl, rfl, rfl, rfl, rfl, rfl, rfl⟩

/-- C6: whenever parcel_geojson or date is missing (falsy), all three
endpoints return HTTP 400 with the error message naming both fields,
and the result does not depend on the parser or the gateway — no
outbound call is made. -/
theorem missing_params_reject_with_400
    (parse parse2 : String → Except String String)
    (gw gw2 : SentinelPayload → GatewayOutcome) (pg date : Option String)
    (h : truthy pg = false ∨ truthy date = false) :
    get_ndvi_image parse gw pg date =
      { status := 400, mimetype := "text/plain",
        body := .text "Missing required parameters: parcel_geojson, date" } ∧
    get_ndvi_stats parse gw pg date =
      .err 400 "Missing required parameters: parcel_geojson, date" none ∧
    export_ndvi_csv parse gw pg date =
      .errorText 400 "Missing required parameters: parcel_geojson, date" ∧
    get_ndvi_image parse gw pg date = get_ndvi_image parse2 gw2 pg date ∧
    get_ndvi_stats parse gw pg date = get_ndvi_stats parse2 gw2 pg date ∧
    export_ndvi_csv parse gw pg date = export_ndvi_csv parse2 gw2 pg date := by
  have hc : (!truthy pg || !truthy date) = true := by
    rcases h with h | h <;> simp [h]
  refine ⟨?_, ?_, ?_, ?_, ?_, ?_⟩ <;>
    simp [get_ndvi_image, get_ndvi_stats, export_ndvi_csv, hc]

/-- Witness for C6 at a concrete request with the date missing. -/
theorem missing_params_reject_with_400_witness :
    get_ndvi_image (fun s => .ok s) (fun _ => .transportError "down")
        (some "geojson") none =
      { status := 400, mimetype := "text/plain",
        body := .text "Missing required parameters: parcel_geojson, date" } ∧
    get_ndvi_stats (fun s => .ok s) (fun _ => .transportError "down")
        (some "geojson") none =
      .err 400 "Missing required parameters: parcel_geojson, date" none ∧
    export_ndvi_csv (fun s => .ok s) (fun _ => .transportError "down")
        (some "geojson") none =
      .errorText 400 "Missing required parameters: parcel_geojson, date" ∧
    get_ndvi_image (fun s => .ok s) (fun _ => .transportError "down")
        (some "geojson") none =
      get_ndvi_image (fun _ => .error "parse failure")
        (fun _ => .response { status := 200, bodyText := "", content := [], contentLength := none })
        (some "geojson") none ∧
    get_ndvi_stats (fun s => .ok s) (fun _ => .transportError "down")
        (some "geojson") none =
      get_ndvi_stats (fun _ => .error "parse failure")
        (fun _ => .response { status := 200, bodyText := "", content := [], contentLength := none })
        (some "geojson") none ∧
    export_ndvi_csv (fun s => .ok s) (fun _ => .transportError "down")
        (some "geojson") none =
      export_ndvi_csv (fun _ => .error "parse failure")
        (fun _ => .response { status := 200, bodyText := "", content := [], contentLength := none })
        (some "geojson") none :=
  missing_params_reject_with_400 (fun s => .ok s) (fun _ => .error "parse failure")
    (fun _ => .transportError "down")
    (fun _ => .response { status := 200, bodyText := "", content := [], contentLength := none })
    (some "geojson") none (Or.inr rfl)

/-- C8: after any sequence of POSTs to the analyses endpoint, at most
one NDVIAnalysis record exists per (parcel_id, analysis_date) pair, and
a POST hitting an existing record updates it in place — the number of
stored records does not grow. -/
theorem analysis_upsert_at_most_one (ops : List AnalysisPost) (pid : Nat)
    (date : String) :
    (runPosts ops).countP (matchesKey pid date) ≤ 1 ∧
    ∀ (db : List AnalysisRecord) (d : AnalysisData),
      db.any (matchesKey pid date) = true →
        (create_analysis db pid date d).length = db.length := by
  constructor
  · exact foldl_applyPost_preserves ops [] (fun _ _ => by simp) pid date
  · intro db d hex
    unfold create_analysis
    rw [if_pos hex, length_updateFirst]

/-- Witness for C8: two POSTs for the same pair leave at most one
record, and an upsert into a store already holding the pair keeps its
length. -/
theorem analysis_upsert_at_most_one_witness :
    (runPosts
        [{ parcel_id := 1, analysis_date := "2024-06-01",
           data := AnalysisData.empty, parcelFound := true, dateParsed := true },
         { parcel_id := 1, analysis_date := "2024-06-01",
           data := AnalysisData.empty, parcelFound := true, dateParsed := true }]).countP
      (matchesKey 1 "2024-06-01") ≤ 1 ∧
    (create_analysis [newAnalysis 1 "2024-06-01" AnalysisData.empty]
        1 "2024-06-01" AnalysisData.empty).length =
      [newAnalysis 1 "2024-06-01" AnalysisData.empty].length :=
  ⟨(analysis_upsert_at_most_one
      [{ parcel_id := 1, analysis_date := "2024-06-01",
         data := AnalysisData.empty, parcelFound := true, dateParsed := true },
       { parcel_id := 1, analysis_date := "2024-06-01",
         data := AnalysisData.empty, parcelFound := true, dateParsed := true }]
      1 "2024-06-01").1,
   (analysis_upsert_at_most_one [] 1 "2024-06-01").2
     [newAnalysis 1 "2024-06-01" AnalysisData.empty] AnalysisData.empty (by decide)⟩

/-- C9: two successful `/ndvi-stats` requests whose gateway responses
agree on the content-length header (or both lack it) produce identical
statistics payloads, whatever the geometry, date or response bytes. -/
theorem stats_depend_only_on_content_length
    (parse1 parse2 : String → Except String String)
    (gw1 gw2 : SentinelPayload → GatewayOutcome)
    (pg1 date1 pg2 date2 : Option String) (geom1 geom2 : String)
    (r1 r2 : GatewayResponse)
    (hpg1 : truthy pg1 = true) (hdate1 : truthy date1 = true)
    (hparse1 : parse1 (pg1.getD "") = .ok geom1)
    (hgw1 : gw1 (buildStatsPayload geom1 (date1.getD "")) = .response r1)
    (h200a : r1.status = 200)
    (hpg2 : truthy pg2 = true) (hdate2 : truthy date2 = true)
    (hparse2 : parse2 (pg2.getD "") = .ok geom2)
    (hgw2 : gw2 (buildStatsPayload geom2 (date2.getD "")) = .response r2)
    (h200b : r2.status = 200)
    (hlen : r1.contentLength = r2.contentLength) :
    get_ndvi_stats parse1 gw1 pg1 date1 = get_ndvi_stats parse2 gw2 pg2 date2 := by
  rw [get_ndvi_stats_success parse1 gw1 pg1 date1 geom1 r1 hpg1 hdate1 hparse1 hgw1 h200a,
    get_ndvi_stats_success parse2 gw2 pg2 date2 geom2 r2 hpg2 hdate2 hparse2 hgw2 h200b]
  unfold applyContentLengthRefinement
  rw [hlen]

/-- Witness for C9: different geometries, dates and body bytes, equal
content-length headers, identical statistics payloads. -/
theorem stats_depend_only_on_content_length_witness :
    get_ndvi_stats (fun s => .ok s)
        (fun _ => .response
          { status := 200, bodyText := "alpha", content := [1, 2, 3],
            contentLength := some 400000 })
        (some "parcelA") (some "2024-06-01") =
      get_ndvi_stats (fun s => .ok s)
        (fun _ => .response
          { status := 200, bodyText := "beta", content := [9],
            contentLength := some 400000 })
        (some "parcelB") (some "2025-01-31") :=
  stats_depend_only_on_content_length (fun s => .ok s) (fun s => .ok s)
    (fun _ => .response
      { status := 200, bodyText := "alpha", content := [1, 2, 3],
        contentLength := some 400000 })
    (fun _ => .response
      { status := 200, bodyText := "beta", content := [9],
        contentLength := some 400000 })
    (some "parcelA") (some "2024-06-01") (some "parcelB") (some "2025-01-31")
    "parcelA" "parcelB"
    { status := 200, bodyText := "alpha", content := [1, 2, 3],
      contentLength := some 400000 }
    { status := 200, bodyText := "beta", content := [9],
      contentLength := some 400000 }
    rfl rfl rfl rfl rfl rfl rfl rfl rfl rfl rfl

/-- C1 counterexample: on an upstream 404 the `/ndvi-image` endpoint
returns the raw upstream error text as a text/plain body, not an image
payload. -/
theorem ndvi_image_returns_text_on_upstream_error :
    get_ndvi_image (fun s => .ok s)
        (fun _ => .response
          { status := 404, bodyText := "Not found", content := [], contentLength := none })
        (some "geo") (some "2024-05-01") =
      { status := 404, mimetype := "text/plain",
        body := .text "Error from Sentinel Hub API: Not found" } ∧
    isImagePayload
      (get_ndvi_image (fun s => .ok s)
        (fun _ => .response
          { status := 404, bodyText := "Not found", content := [], contentLength := none })
        (some "geo") (some "2024-05-01")).body = false := by
  constructor <;> rfl

/-- C1 (amended): on an upstream gateway non-200, `/ndvi-stats`
returns a JSON error body carrying the upstream status code, and
`/ndvi-image` returns the upstream error text as a text/plain body with
the upstream status code — a placeholder image is produced only for
transport or parse exceptions, not for upstream error statuses. -/
theorem upstream_non200_forwarding (parse : String → Except String String)
    (gw : SentinelPayload → GatewayOutcome) (pg date : Option String)
    (geometry : String) (r : GatewayResponse)
    (hpg : truthy pg = true) (hdate : truthy date = true)
    (hparse : parse (pg.getD "") = .ok geometry)
    (h200 : r.status ≠ 200) :
    (gw (buildStatsPayload geometry (date.getD "")) = .response r →
      get_ndvi_stats parse gw pg date =
        .err r.status ("Error from Sentinel API: " ++ r.bodyText) none) ∧
    (gw (buildImagePayload geometry (date.getD "")) = .response r →
      get_ndvi_image parse gw pg date =
        { status := r.status, mimetype := "text/plain",
          body := .text ("Error from Sentinel Hub API: " ++ r.bodyText) }) := by
  constructor <;> intro hgw <;>
    simp [get_ndvi_stats, get_ndvi_image, hpg, hdate, hparse, hgw, h200]

/-- Witness for the amended C1 at an upstream 503. -/
theorem upstream_non200_forwarding_witness :
    get_ndvi_stats (fun s => .ok s)
        (fun _ => .response
          { status := 503, bodyText := "busy", content := [], contentLength := none })
        (some "g") (some "2024-06-01") =
      .err 503 "Error from Sentinel API: busy" none ∧
    get_ndvi_image (fun s => .ok s)
        (fun _ => .response
          { status := 503, bodyText := "busy", content := [], contentLength := none })
        (some "g") (some "2024-06-01") =
      { status := 503, mimetype := "text/plain",
        body := .text "Error from Sentinel Hub API: busy" } :=
  ⟨(upstream_non200_forwarding (fun s => .ok s)
      (fun _ => .response
        { status := 503, bodyText := "busy", content := [], contentLength := none })
      (some "g") (some "2024-06-01") "g"
      { status := 503, bodyText := "busy", content := [], contentLength := none }
      rfl rfl rfl (by decide)).1 rfl,
   (upstream_non200_forwarding (fun s => .ok s)
      (fun _ => .response
        { status := 503, bodyText := "busy", content := [], contentLength := none })
      (some "g") (some "2024-06-01") "g"
      { status := 503, bodyText := "busy", content := [], contentLength := none }
      rfl rfl rfl (by decide)).2 rfl⟩

/-- C3 counterexample: a successful CSV export whose gateway response
carries content-length 200004 (above the 100000 threshold) still
reports pixel count 262144, not 200004 / 4 = 50001 — the CSV path
ignores the content-length header. -/
theorem csv_count_ignores_content_length :
    export_ndvi_csv (fun s => .ok s)
        (fun _ => .response
          { status := 200, bodyText := "", content := [], contentLength := some 200004 })
        (some "g") (some "2024-06-01") =
      .file "ndvi_stats_2024-06-01.csv"
        (flattenStats "2024-06-01" csvDerivedStats false) ∧
    (flattenStats "2024-06-01" csvDerivedStats false).pixel_count = 262144 ∧
    (262144 : Nat) ≠ 200004 / 4 := by
  refine ⟨rfl, rfl, by decide⟩

/-- C3 (amended): in the `/ndvi-stats` fallback the reported count is
content_length / 4 when the header exceeds 100000 and the default
250000 otherwise; in the `/export-ndvi-csv` fallback the count is the
fixed 262144 regardless of the content-length header. -/
theorem fallback_pixel_count_rule (parse : String → Except String String)
    (gw : SentinelPayload → GatewayOutcome) (pg date : Option String)
    (geometry : String) (r : GatewayResponse)
    (hpg : truthy pg = true) (hdate : truthy date = true)
    (hparse : parse (pg.getD "") = .ok geometry)
    (h200 : r.status = 200) :
    (gw (buildStatsPayload geometry (date.getD "")) = .response r →
      get_ndvi_stats parse gw pg date =
        .ok { statsEstimateBase with count :=
          match r.contentLength with
          | some size => if size > 100000 then size / 4 else 250000
          | none => 250000 }) ∧
    (gw (buildCsvPayload geometry (date.getD "")) = .response r →
      export_ndvi_csv parse gw pg date =
        .file ("ndvi_stats_" ++ date.getD "" ++ ".csv")
          (flattenStats (date.getD "") csvDerivedStats false) ∧
      (flattenStats (date.getD "") csvDerivedStats false).pixel_count = 262144) := by
  constructor
  · intro hgw
    rw [get_ndvi_stats_success parse gw pg date geometry r hpg hdate hparse hgw h200]
    unfold applyContentLengthRefinement
    rcases r with ⟨st, bt, ct, cl⟩
    rcases cl with _ | size
    · rfl
    · by_cases hs : size > 100000
      · simp [hs]
      · simp only [hs, if_false]
        rfl
  · intro hgw
    exact ⟨export_ndvi_csv_success parse gw pg date geometry r hpg hdate hparse hgw h200, rfl⟩

/-- Witness for the amended C3: a stats response with content-length
600000 reports 150000 pixels, and a CSV export with the same header
reports 262144. -/
theorem fallback_pixel_count_rule_witness :
    get_ndvi_stats (fun s => .ok s)
        (fun _ => .response
          { status := 200, bodyText := "", content := [], contentLength := some 600000 })
        (some "g") (some "2024-06-01") =
      .ok { statsEstimateBase with count := 150000 } ∧
    export_ndvi_csv (fun s => .ok s)
        (fun _ => .response
          { status := 200, bodyText := "", content := [], contentLength := some 600000 })
        (some "g") (some "2024-06-01") =
      .file "ndvi_stats_2024-06-01.csv"
        (flattenStats "2024-06-01" csvDerivedStats false) ∧
    (flattenStats "2024-06-01" csvDerivedStats false).pixel_count = 262144 := by
  have h := fallback_pixel_count_rule (fun s => .ok s)
    (fun _ => .response
      { status := 200, bodyText := "", content := [], contentLength := some 600000 })
    (some "g") (some "2024-06-01") "g"
    { status := 200, bodyText := "", content := [], contentLength := some 600000 }
    rfl rfl rfl rfl
  refine ⟨?_, (h.2 rfl).1, (h.2 rfl).2⟩
  have h1 := h.1 rfl
  simpa using h1

/-- C4 counterexample: at ndvi = 0.33 the shading formula yields
(0, 0.8, 0), not the pure yellow (1, 1, 0) the claim states. -/
theorem evaluatePixel_boundary_not_yellow :
    evaluatePixel (33/100) = (0, 8/10, 0) ∧
    evaluatePixel (33/100) ≠ ((1 : ℚ), (1 : ℚ), (0 : ℚ)) := by
  constructor
  · norm_num [evaluatePixel]
  · norm_num [evaluatePixel, Prod.ext_iff]

/-- C4 (amended): the shading formula maps every negative ndvi to pure
red, ndvi = 0 to pure red, ndvi = 0.33 to (0, 0.8, 0) — the green
branch boundary, not pure yellow — and ndvi = 1 to green channel
0.8 − (1 − 0.33) × 0.5 = 0.465 with red = blue = 0. -/
theorem evaluatePixel_gradient :
    (∀ ndvi : ℚ, ndvi < 0 → evaluatePixel ndvi = (1, 0, 0)) ∧
    evaluatePixel 0 = (1, 0, 0) ∧
    evaluatePixel (33/100) = (0, 8/10, 0) ∧
    evaluatePixel 1 = (0, 93/200, 0) := by
  refine ⟨?_, ?_, ?_, ?_⟩
  · intro ndvi h
    simp [evaluatePixel, h]
  · norm_num [evaluatePixel]
  · norm_num [evaluatePixel]
  · norm_num [evaluatePixel]

/-- Witness for the amended C4 at ndvi = −0.5, the point the spec
names. -/
theorem evaluatePixel_gradient_witness :
    evaluatePixel (-1/2) = (1, 0, 0) :=
  evaluatePixel_gradient.1 (-1/2) (by norm_num)

/-- C7: every successful CSV export names its attachment
ndvi_stats_date.csv for the requested date, and its three vegetation
columns are the area_distribution fractions multiplied by 100. -/
theorem csv_export_row_and_filename (parse : String → Except String String)
    (gw : SentinelPayload → GatewayOutcome) (pg : Option String) (d : String)
    (geometry : String) (r : GatewayResponse)
    (hpg : truthy pg = true) (hdate : truthy (some d) = true)
    (hparse : parse (pg.getD "") = .ok geometry)
    (hgw : gw (buildCsvPayload geometry d) = .response r)
    (h200 : r.status = 200) :
    export_ndvi_csv parse gw pg (some d) =
      .file ("ndvi_stats_" ++ d ++ ".csv") (flattenStats d csvDerivedStats false) ∧
    (flattenStats d csvDerivedStats false).low_vegetation_pct =
      csvDerivedStats.area_distribution.low_vegetation * 100 ∧
    (flattenStats d csvDerivedStats false).moderate_vegetation_pct =
      csvDerivedStats.area_distribution.moderate_vegetation * 100 ∧
    (flattenStats d csvDerivedStats false).high_vegetation_pct =
      csvDerivedStats.area_distribution.high_vegetation * 100 :=
  ⟨export_ndvi_csv_success parse gw pg (some d) geometry r hpg hdate hparse hgw h200,
   rfl, rfl, rfl⟩

/-- Witness for C7 at a concrete successful export. -/
theorem csv_export_row_and_filename_witness :
    export_ndvi_csv (fun s => .ok s)
        (fun _ => .response
          { status := 200, bodyText := "", content := [7], contentLength := none })
        (some "g") (some "2024-07-15") =
      .file "ndvi_stats_2024-07-15.csv"
        (flattenStats "2024-07-15" csvDerivedStats false) ∧
    (flattenStats "2024-07-15" csvDerivedStats false).low_vegetation_pct =
      csvDerivedStats.area_distribution.low_vegetation * 100 ∧
    (flattenStats "2024-07-15" csvDerivedStats false).moderate_vegetation_pct =
      csvDerivedStats.area_distribution.moderate_vegetation * 100 ∧
    (flattenStats "2024-07-15" csvDerivedStats false).high_vegetation_pct =
      csvDerivedStats.area_distribution.high_vegetation * 100 :=
  csv_export_row_and_filename (fun s => .ok s)
    (fun _ => .response
      { status := 200, bodyText := "", content := [7], contentLength := none })
    (some "g") "2024-07-15" "g"
    { status := 200, bodyText := "", content := [7], contentLength := none }
    rfl rfl rfl rfl rfl

/-- C2: the `/ndvi-stats` fallback payload is labeled as an estimate,
but a successful `/export-ndvi-csv` delivers the same hard-coded
estimated values in a row whose data_source column reads
Sentinel-2 satellite data — the label of the internal statistics
dictionary, which marks them as derived values, is overwritten before
delivery. -/
theorem csv_row_mislabels_estimate_as_measured :
    get_ndvi_stats (fun s => .ok s)
        (fun _ => .response
          { status := 200, bodyText := "", content := [], contentLength := none })
        (some "g") (some "2024-06-01") =
      .ok statsEstimateBase ∧
    statsEstimateBase.data_source = "Sentinel Hub data (estimated values)" ∧
    export_ndvi_csv (fun s => .ok s)
        (fun _ => .response
          { status := 200, bodyText := "", content := [], contentLength := none })
        (some "g") (some "2024-06-01") =
      .file "ndvi_stats_2024-06-01.csv"
        (flattenStats "2024-06-01" csvDerivedStats false) ∧
    (flattenStats "2024-06-01" csvDerivedStats false).data_source =
      "Sentinel-2 satellite data" ∧
    csvDerivedStats.data_source = "Sentinel Hub (derived values - rasterio unavailable)" :=
  ⟨rfl, rfl, rfl, rfl, rfl⟩

end NdviApp
